import Mathlib

/-!
Shallow embedding of the SMS (Spatial Memory Streaming) prefetcher core of
this repository (src/prefetcher/sms.c and src/prefetcher/sms.h).

Conventions of the embedding:

* `Addr`, `AccessPattern`, `Mask` are `uns64` in the source; they are
  modelled as `Nat`, with an explicit `% 2 ^ 64` (or a 64-bit complement
  `not64`) exactly where the C arithmetic can wrap or where the bit width
  matters.
* The generic set-associative cache library (`cache_lib.c`, part of the
  surrounding Scarab simulator but not present under src/) is modelled from
  the spec, section 4.2 "Table Backend": a table entry is the single slot
  chosen for a key, `lookup`/`insert`/`invalidate` act on that slot, and the
  capacity-driven LRU eviction of *other* keys is abstracted away (sets are
  unbounded here).  The set-granular walk of the pattern history table that
  `pattern_history_table_access` performs by hand over `Cache_Entry` records
  is embedded separately and faithfully over one cache set.
* `STAT_EVENT` telemetry is dropped except for the `PATTERN_OVERFLOW`-style
  counter bump of `line_address_access_pattern`, which claim C5 mentions; it
  is modelled as the `Bool` component of that function's result.
* The unused `Op* op` and `uns8 proc_id` parameters (instruction descriptor
  and statistics routing only) are dropped.
* The public entry points receive `SMS**`: a possibly-NULL handle that the
  functions replace by a fresh `sms_init` instance.  This is modelled as an
  `Option SMS` argument plus the ambient dcache stage `dc` that the NULL
  branch passes to `sms_init`; the functions return the state the handle
  points to afterwards.
-/

abbrev Addr : Type := Nat

abbrev AccessPattern : Type := Nat

abbrev TableIndex : Type := Addr

/-- 64-bit bitwise complement: `~m` evaluated in `uns64`, for `m < 2 ^ 64`.
Used for the C expressions `line_addr & ~cache_offset_mask`. -/
def not64 (m : Nat) : Nat := m ^^^ (2 ^ 64 - 1)

/-- Replacement policy tag passed to `init_cache`; the source always passes
`REPL_LRU_REF`. -/
inductive ReplPolicy where
  | lru_ref
  deriving DecidableEq

/-- Modelled from the spec: the table backend of section 4.2, backing the
filter, accumulation and pattern history tables (the real backend is the
Scarab cache library, which is not under src/).  The configuration fields
record the `init_cache` arguments; `data` is an association list from table
index (key `K`) to the stored access pattern, holding the slot chosen for
each key.  Capacity-driven LRU eviction is abstracted (unbounded sets). -/
structure SmsTable where
  numEntries : Nat
  assoc : Nat
  lineSize : Nat
  offsetMask : Nat
  repl : ReplPolicy
  data : List (TableIndex × AccessPattern)
  deriving DecidableEq

/-- Data stored per dcache line; the stream emitter sets `HW_prefetch` on
the lines it installs (sms.c, `(*dcache_line_data).HW_prefetch = TRUE`). -/
structure Dcache_Data where
  HW_prefetch : Bool
  deriving DecidableEq

/-- The L1 data cache, as far as SMS reads it: its line size and its resident
lines.  Modelled from the spec (section 6.1): the dcache itself is an external
collaborator; an unbounded map keyed by address stands in for it, so installs
never evict (`repl_line_addr` is always 0 here). -/
structure Dcache where
  lineSize : Nat
  data : List (Addr × Dcache_Data)
  deriving DecidableEq

/-- `struct Spatial_Memory_Streaming_struct` (sms.h): the dcache-stage
reference and the three SMS tables.  The vestigial `prefetch_queue` field is
never populated by the source and is omitted. -/
structure SMS where
  dcache : Dcache
  accumulation_table : SmsTable
  filter_table : SmsTable
  pattern_history_table : SmsTable
  deriving DecidableEq

/-- Modelled from the spec: `init_cache` of the cache library (not under
src/), called by `sms_init` with (entry count, associativity, line size,
data size, REPL_LRU_REF).  The offset mask of a table with line size `R` is
`R - 1` (spec sections 3 and 4.1: region base is `A & ~(R−1)`; the source's
own comment block in `sms_init` records 11 offset bits for the 2048-byte
line size). -/
def init_cache (numEntries : Nat) (assoc : Nat) (lineSize : Nat) : SmsTable :=
  { numEntries := numEntries
    assoc := assoc
    lineSize := lineSize
    offsetMask := lineSize - 1
    repl := ReplPolicy.lru_ref
    data := [] }

/-- `sms_init` (sms.c:26-123): allocate the SMS instance and initialise the
accumulation table, the filter table and the pattern history table, each
with 16384 entries, associativity 4, line size 2048 and LRU replacement. -/
def sms_init (dcache_stage : Dcache) : SMS :=
  { dcache := dcache_stage
    accumulation_table := init_cache 16384 4 2048
    filter_table := init_cache 16384 4 2048
    pattern_history_table := init_cache 16384 4 2048 }

/-- `table_check` (sms.c:624-645): `cache_access` on the table at the table
index; a hit returns the stored access pattern (the C function returns a
pointer into the entry, `none` models NULL).  Recency touching is part of
the abstracted LRU state. -/
def table_check (table : SmsTable) (table_index : TableIndex) :
    Option AccessPattern :=
  (table.data.find? (fun e => e.1 == table_index)).map (fun e => e.2)

/-- `table_insert` (sms.c:647-714): `cache_insert` allocates the slot for the
table index and the stored data is overwritten with the given pattern.  The
C return value only classifies the eviction for telemetry and is unused by
the callers' logic, so it is dropped. -/
def table_insert (table : SmsTable) (table_index : TableIndex)
    (memory_region_access_pattern : AccessPattern) : SmsTable :=
  { table with
    data := (table_index, memory_region_access_pattern) ::
      table.data.filter (fun e => e.1 != table_index) }

/-- `table_invalidate` (sms.c:716-735): `cache_invalidate` clears the entry
for the table index. -/
def table_invalidate (table : SmsTable) (table_index : TableIndex) : SmsTable :=
  { table with data := table.data.filter (fun e => e.1 != table_index) }

/-- `get_table_index` (sms.c:281-317): the fingerprint `K` of a line address
is the base address of its spatial region,
`line_addr & ~pattern_history_table.offset_mask`. -/
def get_table_index (sms : SMS) (line_addr : Addr) : TableIndex :=
  let cache_offset_mask := sms.pattern_history_table.offsetMask
  line_addr &&& not64 cache_offset_mask

/-- `line_address_access_pattern` (sms.c:319-385): isolate the offset bits of
the line address inside its spatial region, divide by the dcache line size to
get the block index, and return the one-bit bitmap for that block.  When the
block index reaches the bitmap's upper limit
(`spatial_region_size / cache_line_size`) the function returns 0 instead and
bumps the overflow counter, modelled as the `Bool` component (`true` =
`ACCESS_PATTERN_BLOCK_INDEX_OVER_SPATIAL_PATTERN_LIMIT` was counted).
`1ULL << block_index` is `uns64` arithmetic, hence the `% 2 ^ 64`. -/
def line_address_access_pattern (sms : SMS) (line_addr : Addr) :
    AccessPattern × Bool :=
  let spatial_region_size := sms.pattern_history_table.lineSize
  let cache_line_size := sms.dcache.lineSize
  let access_pattern_upper_limit := spatial_region_size / cache_line_size
  let cache_offset_mask := sms.pattern_history_table.offsetMask
  let line_addr_offset_bits := line_addr &&& cache_offset_mask
  let block_index := line_addr_offset_bits / cache_line_size
  if block_index < access_pattern_upper_limit then
    ((1 <<< block_index) % 2 ^ 64, false)
  else
    (0, true)

/-- `filter_table_check` (sms.c:812-835): TRUE iff the filter table holds an
entry for the table index. -/
def filter_table_check (sms : SMS) (table_index : TableIndex) : Bool :=
  (table_check sms.filter_table table_index).isSome

/-- `accumulation_table_check` (sms.c:1060-1082): TRUE iff the accumulation
table holds an entry for the table index. -/
def accumulation_table_check (sms : SMS) (table_index : TableIndex) : Bool :=
  (table_check sms.accumulation_table table_index).isSome

/-- `active_generation_table_check` (sms.c:148-202): the line's fingerprint
is live iff it is in the accumulation table or in the filter table. -/
def active_generation_table_check (sms : SMS) (line_addr : Addr) : Bool :=
  let table_index := get_table_index sms line_addr
  let accumulation_table_flag := accumulation_table_check sms table_index
  let filter_table_flag := filter_table_check sms table_index
  accumulation_table_flag || filter_table_flag

/-- `pattern_history_table_insert` (sms.c:1157-1197): `table_insert` into the
pattern history table. -/
def pattern_history_table_insert (sms : SMS) (table_index : TableIndex)
    (memory_region_access_pattern : AccessPattern) : SMS :=
  { sms with
    pattern_history_table :=
      table_insert sms.pattern_history_table table_index
        memory_region_access_pattern }

/-- `active_generation_table_delete` (sms.c:204-279): compute the table index
from the given line address; if the accumulation table holds it, transfer the
stored pattern to the pattern history table and invalidate the accumulation
table entry; afterwards, if the filter table holds it, invalidate that entry
as well. -/
def active_generation_table_delete (sms : SMS) (line_addr : Addr) : SMS :=
  let table_index := get_table_index sms line_addr
  let sms1 :=
    match table_check sms.accumulation_table table_index with
    | some cache_line_data =>
        let sms2 := pattern_history_table_insert sms table_index cache_line_data
        { sms2 with
          accumulation_table :=
            table_invalidate sms2.accumulation_table table_index }
    | none => sms
  if filter_table_check sms1 table_index then
    { sms1 with
      filter_table := table_invalidate sms1.filter_table table_index }
  else
    sms1

/-- Body of `sms_dcache_insert` (sms.c:512-622) once the handle is known to
be non-NULL.  If no dcache line was evicted (`repl_line_addr == 0`) only a
counter is bumped.  Otherwise the source checks and deletes the active
generation of `line_addr` — the line being INSERTED; the evicted address
`repl_line_addr` is never used beyond the zero test (sms.c:592-609). -/
def sms_dcache_insert_body (sms : SMS) (line_addr : Addr)
    (repl_line_addr : Addr) : SMS :=
  if repl_line_addr = 0 then
    sms
  else
    if active_generation_table_check sms line_addr then
      active_generation_table_delete sms line_addr
    else
      sms

/-- Lookup of a dcache line: `table_check` applied to the dcache (sms.c
passes `&dcache_stage->dcache` to `table_check` inside the stream loop). -/
def dcache_check (dcache : Dcache) (addr : Addr) : Option Dcache_Data :=
  (dcache.data.find? (fun e => e.1 == addr)).map (fun e => e.2)

/-- `cache_insert` into the dcache followed by `HW_prefetch = TRUE`
(sms.c:1458-1466).  In the unbounded dcache model no line is evicted, so the
C out-parameter `repl_line_addr` is 0. -/
def dcache_insert_prefetch (dcache : Dcache) (line_addr : Addr) : Dcache :=
  { dcache with
    data := (line_addr, { HW_prefetch := true }) ::
      dcache.data.filter (fun e => e.1 != line_addr) }

/-- Step 4 of `sms_stream_blocks_to_data_cache` (sms.c:1436-1489): walk the
prediction registers; for each one, `table_check` the DCACHE at the
TABLE INDEX (not at the predicted address), and only on a hit install the
predicted line (marked as a hardware prefetch) and re-enter
`sms_dcache_insert` with the evicted address (always 0 here).  Returns the
final state and the list of installed (streamed) line addresses in order. -/
def sms_stream_install_loop (sms : SMS) (table_index : TableIndex) :
    List Addr → SMS × List Addr
  | [] => (sms, [])
  | line_addr :: rest =>
    if (dcache_check sms.dcache table_index).isSome then
      let sms1 := { sms with dcache := dcache_insert_prefetch sms.dcache line_addr }
      let sms2 := sms_dcache_insert_body sms1 line_addr 0
      let r := sms_stream_install_loop sms2 table_index rest
      (r.1, line_addr :: r.2)
    else
      sms_stream_install_loop sms table_index rest

/-- `sms_stream_blocks_to_data_cache` (sms.c:1360-1492).  NOTE the parameter
order of the DEFINITION in sms.c: `(sms, proc_id, table_index,
set_merged_access_pattern, line_addr)` — the 4th parameter is the merged
pattern and the 5th the line address.  The prototype in sms.h:556-562
declares the opposite order `(…, line_addr, set_merged_access_pattern)`, and
the call site follows the prototype; the embedding keeps the definition's
order here and reproduces the call site positionally in
`pattern_history_table_access`.  The body: the region base is
`line_addr & ~offset_mask`; the prediction registers hold
`base + i * dcache_line_size` for every set bit `i` of the 64-bit pattern in
ascending order (`region_offset` has been advanced `i` times when bit `i` is
inspected), as many as the popcount counted in step 2; step 4 is
`sms_stream_install_loop`. -/
def sms_stream_blocks_to_data_cache (sms : SMS) (table_index : TableIndex)
    (set_merged_access_pattern : AccessPattern) (line_addr : Addr) :
    SMS × List Addr :=
  let sms_offset_mask := sms.pattern_history_table.offsetMask
  let base_address_of_region := line_addr &&& not64 sms_offset_mask
  let prediction_registers :=
    (List.range 64).filterMap (fun i =>
      if (set_merged_access_pattern >>> i) &&& 1 = 1 then
        some (base_address_of_region + i * sms.dcache.lineSize)
      else
        none)
  sms_stream_install_loop sms table_index prediction_registers

/-- `pattern_history_table_access` (sms.c:1199-1355): on a trigger access,
walk the pattern history table set of the fingerprint, OR together the
patterns of the valid entries whose tag matches, and when the merged pattern
is non-zero stream it.  In the one-slot-per-key backend model the set walk
collapses to the stored value of the key (0 on a miss); the set-granular walk
itself is embedded faithfully as `pht_set_merged` below.  The call to
`sms_stream_blocks_to_data_cache` passes, positionally, the prototype's
argument order `(table_index, line_addr, set_merged_access_pattern)` into
the definition's parameters `(table_index, set_merged_access_pattern,
line_addr)` — reproducing the source's header/definition mismatch. -/
def pattern_history_table_access (sms : SMS) (line_addr : Addr) :
    SMS × List Addr :=
  let table_index := get_table_index sms line_addr
  let set_merged_access_pattern :=
    (table_check sms.pattern_history_table table_index).getD 0
  if set_merged_access_pattern ≠ 0 then
    sms_stream_blocks_to_data_cache sms table_index line_addr
      set_merged_access_pattern
  else
    (sms, [])

/-- `accumulation_table_insert` (sms.c:1084-1128): OR the line's one-bit
pattern into the pattern carried over from the filter table and create the
accumulation table entry.  (No filter table entry is touched here.) -/
def accumulation_table_insert (sms : SMS) (table_index : TableIndex)
    (line_addr_access_pattern : AccessPattern)
    (memory_region_access_pattern : AccessPattern) : SMS :=
  { sms with
    accumulation_table :=
      table_insert sms.accumulation_table table_index
        (line_addr_access_pattern ||| memory_region_access_pattern) }

/-- `filter_table_update` (sms.c:878-936): read the stored pattern for the
table index (the source dereferences the `table_check` pointer, so a miss —
`none` — is undefined behaviour there; callers only reach this after a hit,
and the embedding returns the state unchanged on that unreachable branch).
If the line's pattern adds a new bit, insert the merged pattern into the
accumulation table; otherwise the same line was re-accessed and nothing is
changed.  The filter table entry is NOT invalidated on the transfer. -/
def filter_table_update (sms : SMS) (table_index : TableIndex)
    (line_addr_access_pattern : AccessPattern) : SMS :=
  match table_check sms.filter_table table_index with
  | none => sms
  | some memory_region_access_pattern =>
    if line_addr_access_pattern ||| memory_region_access_pattern
        ≠ memory_region_access_pattern then
      accumulation_table_insert sms table_index line_addr_access_pattern
        memory_region_access_pattern
    else
      sms

/-- `filter_table_insert` (sms.c:837-876): create the filter table entry for
the table index with the line's pattern. -/
def filter_table_insert (sms : SMS) (table_index : TableIndex)
    (line_addr_access_pattern : AccessPattern) : SMS :=
  { sms with
    filter_table :=
      table_insert sms.filter_table table_index line_addr_access_pattern }

/-- `filter_table_access` (sms.c:740-810): compute the line's pattern and
table index; insert a fresh filter table entry on a miss, update on a hit. -/
def filter_table_access (sms : SMS) (line_addr : Addr) : SMS :=
  let line_addr_access_pattern := (line_address_access_pattern sms line_addr).1
  let table_index := get_table_index sms line_addr
  if filter_table_check sms table_index = false then
    filter_table_insert sms table_index line_addr_access_pattern
  else
    filter_table_update sms table_index line_addr_access_pattern

/-- `accumulation_table_access` (sms.c:941-1058): on a miss in the
accumulation table, fall through to the filter table.  On a hit, OR the
line's pattern into the stored pattern; if that changes it, the entry is
invalidated and re-inserted with the merged pattern, otherwise nothing is
written. -/
def accumulation_table_access (sms : SMS) (line_addr : Addr) : SMS :=
  let line_addr_access_pattern := (line_address_access_pattern sms line_addr).1
  let table_index := get_table_index sms line_addr
  if accumulation_table_check sms table_index = false then
    filter_table_access sms line_addr
  else
    match table_check sms.accumulation_table table_index with
    | some stored_memory_region_access_pattern =>
      let merged :=
        line_addr_access_pattern ||| stored_memory_region_access_pattern
      if merged ≠ stored_memory_region_access_pattern then
        { sms with
          accumulation_table :=
            table_insert
              (table_invalidate sms.accumulation_table table_index)
              table_index merged }
      else
        sms
    | none => sms

/-- `sms_dcache_access` (sms.c:387-510).  A NULL handle is replaced by
`sms_init dc` first.  If the fingerprint is live in the active generation
table the access is routed to the accumulation table; otherwise it is a
trigger access: consult the pattern history table (streaming any prediction)
and then open a filter table entry.  Returns the resulting state and the
line addresses the stream emitter installed. -/
def sms_dcache_access (dc : Dcache) (sms : Option SMS) (line_addr : Addr) :
    SMS × List Addr :=
  let s := match sms with
    | none => sms_init dc
    | some s0 => s0
  if active_generation_table_check s line_addr then
    (accumulation_table_access s line_addr, [])
  else
    let r := pattern_history_table_access s line_addr
    (filter_table_access r.1 line_addr, r.2)

/-- `sms_dcache_insert` (sms.c:512-622), public entry point: a NULL handle
is replaced by `sms_init dc` first, then `sms_dcache_insert_body` runs. -/
def sms_dcache_insert (dc : Dcache) (sms : Option SMS) (line_addr : Addr)
    (repl_line_addr : Addr) : SMS :=
  let s := match sms with
    | none => sms_init dc
    | some s0 => s0
  sms_dcache_insert_body s line_addr repl_line_addr

/-!
Set-granular embedding of the pattern history table walk
(sms.c:1218-1317).  `pattern_history_table_access` iterates over the
associativity-many `Cache_Entry` records of the set the fingerprint maps
to, collects the access patterns of the entries that are valid, carry the
matching tag and have a non-NULL data pointer, and ORs them together.
-/

/-- `Cache_Entry` of the cache library as read by the walk: validity bit,
tag, and the data pointer (`none` models NULL, which the walk skips with the
"this shouldn't happen" counter).  The `last_access_time` recency field is
part of the abstracted LRU state. -/
structure Cache_Entry where
  valid : Bool
  tag : Addr
  data : Option AccessPattern
  deriving DecidableEq

/-- First loop of the walk (sms.c:1249-1307): collect, in set order, the
access patterns of the entries with `valid && tag == tag && data`. -/
def pht_set_collect (entries : List Cache_Entry) (tag : Addr) :
    List AccessPattern :=
  entries.filterMap (fun cache_entry =>
    if cache_entry.valid = true ∧ cache_entry.tag = tag then
      cache_entry.data
    else
      none)

/-- Second loop of the walk (sms.c:1311-1317): OR the collected patterns
into `set_merged_access_pattern`, starting from 0. -/
def pht_set_merged (entries : List Cache_Entry) (tag : Addr) : AccessPattern :=
  (pht_set_collect entries tag).foldl (fun acc p => acc ||| p) 0

/-- Written from the spec's words (section 4.5, `pht_predict`): "if the set
contains any entry tagged `K`, return the bitwise OR of *all* such entries
in that set"; the patterns of the valid entries tagged `K`, OR-merged. -/
def pht_predict_spec (entries : List Cache_Entry) (K : Addr) : AccessPattern :=
  ((entries.filter (fun e => e.valid && e.tag == K)).filterMap
    (fun e => e.data)).foldr (fun p acc => p ||| acc) 0

/-!
Helper lemmas about the table backend and bitwise OR folds.
-/

theorem table_check_table_insert_self (t : SmsTable) (k : TableIndex)
    (v : AccessPattern) : table_check (table_insert t k v) k = some v := by
  simp [table_check, table_insert]

theorem foldl_lor_eq (l : List Nat) (a : Nat) :
    l.foldl (fun acc p => acc ||| p) a = a ||| l.foldr (fun p acc => p ||| acc) 0 := by
  induction l generalizing a with
  | nil => simp
  | cons p l ih => simp [List.foldl, List.foldr, ih (a ||| p), Nat.lor_assoc]

theorem pht_set_collect_eq (entries : List Cache_Entry) (t : Addr) :
    pht_set_collect entries t =
      (entries.filter (fun e => e.valid && e.tag == t)).filterMap
        (fun e => e.data) := by
  induction entries with
  | nil => rfl
  | cons e l ih =>
    by_cases h : e.valid = true ∧ e.tag = t
    · cases hd : e.data <;>
        simp [pht_set_collect, List.filter_cons, List.filterMap_cons, h, hd,
          pht_set_collect] at ih ⊢ <;>
        simp [ih, hd]
    · simp [pht_set_collect, List.filter_cons, List.filterMap_cons, h,
        pht_set_collect] at ih ⊢
      simp [ih]

/-!
Concrete states used by the claim-level evaluations.  Addresses follow the
spec's end-to-end scenarios (region size 2048, dcache line size 64, so the
region of 0x1000..0x17ff has fingerprint K = 0x1000).
-/

/-- Accumulation table holds a live generation for region 0x1000 with
pattern 0b111 (spec scenario S3/S4); filter table and PHT empty. -/
def c1State : SMS :=
  { sms_init ⟨64, []⟩ with
    accumulation_table :=
      { (sms_init ⟨64, []⟩).accumulation_table with data := [(0x1000, 0b111)] } }

/-- Claim C1: a `sms_dcache_insert` with a non-zero evicted address closes
the generation keyed by the fingerprint of the EVICTED line, the inserted
line playing no role.  The code does the opposite: with `AT[0x1000] = 0b111`
live, inserting line 0x5000 while evicting 0x1040 (spec scenario S4, whose
`K_ev = 0x1000`) leaves every table unchanged — no PHT record, no AT
invalidation — because the close is keyed by the inserted address 0x5000;
whereas inserting 0x1040 while evicting the unrelated 0x5000 is what closes
region 0x1000's generation. -/
theorem sms_dcache_insert_closes_inserted_line_generation :
    sms_dcache_insert ⟨64, []⟩ (some c1State) 0x5000 0x1040 = c1State ∧
    table_check (sms_dcache_insert ⟨64, []⟩ (some c1State) 0x5000
        0x1040).accumulation_table 0x1000 = some 0b111 ∧
    table_check (sms_dcache_insert ⟨64, []⟩ (some c1State) 0x5000
        0x1040).pattern_history_table 0x1000 = none ∧
    table_check (sms_dcache_insert ⟨64, []⟩ (some c1State) 0x1040
        0x5000).pattern_history_table 0x1000 = some 0b111 ∧
    table_check (sms_dcache_insert ⟨64, []⟩ (some c1State) 0x1040
        0x5000).accumulation_table 0x1000 = none := by
  refine ⟨by decide, by decide, by decide, by decide, by decide⟩

/-- State after a cold access to line 0x1000 (spec scenario S1). -/
def c2State1 : SMS :=
  (sms_dcache_access ⟨64, []⟩ (some (sms_init ⟨64, []⟩)) 0x1000).1

/-- State after the subsequent access to line 0x1040, the second distinct
line of the region (spec scenario S2: the FT→AT promotion). -/
def c2State2 : SMS := (sms_dcache_access ⟨64, []⟩ (some c2State1) 0x1040).1

/-- Claim C2: no fingerprint is simultaneously resident in the filter table
and the accumulation table after a public operation returns; the promotion
is supposed to erase the FT entry in the same event.  The code violates
this: after the two accesses of spec scenarios S1-S2, fingerprint 0x1000 is
resident in BOTH tables, because `filter_table_update` inserts the merged
pattern into the accumulation table without ever invalidating the filter
table entry. -/
theorem filter_and_accumulation_not_disjoint_after_promotion :
    (table_check c2State2.filter_table 0x1000).isSome = true ∧
    (table_check c2State2.accumulation_table 0x1000).isSome = true ∧
    table_check c2State2.filter_table 0x1000 = some 0b1 ∧
    table_check c2State2.accumulation_table 0x1000 = some 0b11 := by
  refine ⟨by decide, by decide, by decide, by decide⟩

/-- Dcache holding the (just accessed) line of region 0x1000. -/
def c3Dcache : Dcache := ⟨64, [(0x1000, ⟨false⟩)]⟩

/-- Pattern history table holds prediction 0b111 for fingerprint 0x1000
(spec scenario S5); filter and accumulation tables empty. -/
def c3State : SMS :=
  { sms_init c3Dcache with
    pattern_history_table :=
      { (sms_init c3Dcache).pattern_history_table with
        data := [(0x1000, 0b111)] } }

/-- Claim C3: on a trigger access to A = 0x1008 with merged prediction
0b111, the claimed set of streamed addresses is
{0x1000 + i * 64 : i ∈ {0,1,2}} = [0x1000, 0x1040, 0x1080] (spec scenario
S5).  The code instead submits [192, 768]: the call in
`pattern_history_table_access` follows the sms.h prototype's argument order
`(line_addr, set_merged_access_pattern)` while the definition in sms.c
declares `(set_merged_access_pattern, line_addr)`, so the base address is
computed from the pattern (0b111 & ~0x7ff = 0) and the streamed bits are
the bits of the ADDRESS 0x1008 (bits 3 and 12, giving 3*64 = 192 and
12*64 = 768). -/
theorem stream_addresses_diverge_from_merged_prediction :
    (sms_dcache_access c3Dcache (some c3State) 0x1008).2 = [192, 768] ∧
    (sms_dcache_access c3Dcache (some c3State) 0x1008).2 ≠
      [0x1000, 0x1040, 0x1080] := by
  refine ⟨by decide, by decide⟩

/-- Dcache holding both the region-base line 0x1000 and the predicted line
0x1040 (not yet marked as a hardware prefetch). -/
def c4Dcache : Dcache := ⟨64, [(0x1000, ⟨false⟩), (0x1040, ⟨false⟩)]⟩

/-- SMS instance whose dcache stage is `c4Dcache`. -/
def c4State : SMS := sms_init c4Dcache

/-- Claim C4: a predicted line already present in the dcache is not
prefetched, and installs are issued only for absent lines.  The code
violates this: calling the stream emitter (with the definition's own
parameter meanings) for table index 0x1000 and pattern 0b10 predicts line
0x1040, which is ALREADY resident in the dcache, yet an install is issued
for it and it is re-installed marked as a hardware prefetch — the per-line
check the claim describes does not exist; the only gate is a dcache lookup
of the table index. -/
theorem stream_installs_line_already_present_in_dcache :
    (dcache_check c4State.dcache 0x1040).isSome = true ∧
    (sms_stream_blocks_to_data_cache c4State 0x1000 0b10 0x1000).2 =
      [0x1040] ∧
    dcache_check (sms_stream_blocks_to_data_cache c4State 0x1000 0b10
        0x1000).1.dcache 0x1040 = some { HW_prefetch := true } := by
  refine ⟨by decide, by decide, by decide⟩

/-- Claim C5: for every address `A`, `line_address_access_pattern` returns
the bitmap with exactly one bit set — bit `(A & (R−1)) / L` where `R` is the
region size (the pattern history table's line size, whose offset mask is
`R − 1`) and `L` the dcache line size — and whenever that index reaches
`B = R / L` it returns 0 and bumps the overflow counter (the `true` flag)
instead of aborting.  Stated under the spec's configuration constraints
`L > 0` and `B ≤ 64`. -/
theorem line_address_access_pattern_single_bit_or_overflow
    (s : SMS) (A : Addr)
    (hM : s.pattern_history_table.offsetMask =
      s.pattern_history_table.lineSize - 1)
    (hL : 0 < s.dcache.lineSize)
    (hB : s.pattern_history_table.lineSize / s.dcache.lineSize ≤ 64) :
    ((A &&& (s.pattern_history_table.lineSize - 1)) / s.dcache.lineSize <
        s.pattern_history_table.lineSize / s.dcache.lineSize →
      line_address_access_pattern s A =
        (2 ^ ((A &&& (s.pattern_history_table.lineSize - 1)) /
          s.dcache.lineSize), false) ∧
      ∀ j, ((line_address_access_pattern s A).1.testBit j = true ↔
        j = (A &&& (s.pattern_history_table.lineSize - 1)) /
          s.dcache.lineSize)) ∧
    (s.pattern_history_table.lineSize / s.dcache.lineSize ≤
        (A &&& (s.pattern_history_table.lineSize - 1)) / s.dcache.lineSize →
      line_address_access_pattern s A = (0, true)) := by
  have hL' := hL
  constructor
  · intro h
    have h64 : (A &&& (s.pattern_history_table.lineSize - 1)) /
        s.dcache.lineSize < 64 := lt_of_lt_of_le h hB
    have hpow : (1 <<< ((A &&& (s.pattern_history_table.lineSize - 1)) /
        s.dcache.lineSize)) % 2 ^ 64 =
        2 ^ ((A &&& (s.pattern_history_table.lineSize - 1)) /
          s.dcache.lineSize) := by
      rw [Nat.shiftLeft_eq, one_mul]
      exact Nat.mod_eq_of_lt (Nat.pow_lt_pow_right (by norm_num) h64)
    have hval : line_address_access_pattern s A =
        (2 ^ ((A &&& (s.pattern_history_table.lineSize - 1)) /
          s.dcache.lineSize), false) := by
      simp only [line_address_access_pattern, hM]
      rw [if_pos h, hpow]
    refine ⟨hval, fun j => ?_⟩
    rw [hval]
    constructor
    · intro hj
      by_contra hne
      rw [Nat.testBit_two_pow_of_ne (Ne.symm hne)] at hj
      exact Bool.false_ne_true hj
    · intro hj
      rw [hj]
      exact Nat.testBit_two_pow_self
  · intro h
    simp only [line_address_access_pattern, hM]
    rw [if_neg (not_lt.mpr h)]

/-- Witness for C5 at concrete configurations: with dcache line size 33 the
block index of address 2046 reaches the limit 2048/33 = 62, so the pattern
is 0 and the overflow counter is bumped; with address 67 the block index 2
is in range and the pattern is the single-bit bitmap 2^2 = 4. -/
theorem line_address_access_pattern_single_bit_or_overflow_witness :
    line_address_access_pattern (sms_init ⟨33, []⟩) 2046 = (0, true) ∧
    line_address_access_pattern (sms_init ⟨33, []⟩) 67 = (4, false) := by
  have h1 := line_address_access_pattern_single_bit_or_overflow
    (sms_init ⟨33, []⟩) 2046 rfl (by decide) (by decide)
  have h2 := line_address_access_pattern_single_bit_or_overflow
    (sms_init ⟨33, []⟩) 67 rfl (by decide) (by decide)
  exact ⟨h1.2 (by decide), ((h2.1 (by decide)).1).trans (by decide)⟩

/-- Claim C6: the pattern-history-table prediction for a fingerprint `K`
merges, by bitwise OR, the patterns of ALL valid entries tagged `K` in
`K`'s set (several may coexist within the associativity), and is 0 when the
set has no valid entry tagged `K`. -/
theorem pht_set_merged_or_of_tagged_entries (entries : List Cache_Entry)
    (K : Addr) :
    pht_set_merged entries K = pht_predict_spec entries K ∧
    ((∀ e ∈ entries, e.valid = true → e.tag ≠ K) →
      pht_set_merged entries K = 0) := by
  have hcollect := pht_set_collect_eq entries K
  constructor
  · rw [pht_set_merged, hcollect, pht_predict_spec, foldl_lor_eq,
      Nat.zero_or]
  · intro h
    have hnil : entries.filter (fun e => e.valid && e.tag == K) = [] := by
      rw [List.filter_eq_nil_iff]
      intro e he
      simp only [Bool.and_eq_true, beq_iff_eq, not_and]
      exact h e he
    rw [pht_set_merged, hcollect, hnil]
    rfl

/-- A pattern-history-table set with two valid entries tagged 5 (patterns 3
and, with a NULL data pointer, skipped), one valid entry with the foreign
tag 7, and one invalid entry tagged 5. -/
def c6Entries : List Cache_Entry :=
  [⟨true, 5, some 3⟩, ⟨true, 7, some 4⟩, ⟨false, 5, some 8⟩, ⟨true, 5, none⟩]

/-- Witness for C6: no valid entry of `c6Entries` is tagged 9, so the merged
prediction for fingerprint 9 is 0. -/
theorem pht_set_merged_or_of_tagged_entries_witness :
    pht_set_merged c6Entries 9 = 0 :=
  (pht_set_merged_or_of_tagged_entries c6Entries 9).2 (by decide)

/-- Claim C7: when fingerprint `table_index` is resident in the filter table
with stored pattern `q` and the access pattern is `p`: if `p ||| q = q` (the
same line re-accessed) `filter_table_update` changes nothing — the filter
table entry is untouched and no accumulation table entry is created; if a
new bit arrives, an accumulation table entry is created holding exactly
`p ||| q`. -/
theorem filter_table_update_same_line_noop_else_promote
    (s : SMS) (table_index : TableIndex) (p q : AccessPattern)
    (h : table_check s.filter_table table_index = some q) :
    (p ||| q = q → filter_table_update s table_index p = s) ∧
    (p ||| q ≠ q →
      table_check (filter_table_update s table_index p).accumulation_table
        table_index = some (p ||| q)) := by
  constructor
  · intro heq
    simp [filter_table_update, h, heq]
  · intro hne
    simp [filter_table_update, h, hne, accumulation_table_insert,
      table_check_table_insert_self]

/-- Filter table holding pattern 0b1 for fingerprint 5; everything else
empty. -/
def c7State : SMS :=
  { sms_init ⟨64, []⟩ with
    filter_table :=
      { (sms_init ⟨64, []⟩).filter_table with data := [(5, 1)] } }

/-- Witness for C7: re-accessing the same line (p = q = 1) leaves the state
unchanged; a second distinct line (p = 2) creates the accumulation table
entry 2 ||| 1 = 3. -/
theorem filter_table_update_same_line_noop_else_promote_witness :
    filter_table_update c7State 5 1 = c7State ∧
    table_check (filter_table_update c7State 5 2).accumulation_table 5 =
      some 3 := by
  refine ⟨(filter_table_update_same_line_noop_else_promote c7State 5 1 1
    (by decide)).1 (by decide), ?_⟩
  exact ((filter_table_update_same_line_noop_else_promote c7State 5 2 1
    (by decide)).2 (by decide)).trans (by decide)

/-- Claim C8: when an access finds its fingerprint in the accumulation table
with stored pattern `q`, the stored pattern afterwards is `p ||| q` (where
`p` is the access's one-bit pattern), so accumulation is monotone under
bitwise OR: every previously set bit of `q` remains set. -/
theorem accumulation_table_access_or_monotone
    (s : SMS) (line_addr : Addr) (q : AccessPattern)
    (h : table_check s.accumulation_table (get_table_index s line_addr) =
      some q) :
    table_check (accumulation_table_access s line_addr).accumulation_table
        (get_table_index s line_addr) =
      some ((line_address_access_pattern s line_addr).1 ||| q) ∧
    ∀ j, q.testBit j = true →
      ((line_address_access_pattern s line_addr).1 ||| q).testBit j =
        true := by
  constructor
  · have hc : accumulation_table_check s (get_table_index s line_addr) =
        true := by
      simp [accumulation_table_check, h]
    by_cases hor : (line_address_access_pattern s line_addr).1 ||| q = q
    · simp [accumulation_table_access, hc, h, hor]
    · simp [accumulation_table_access, hc, h, hor,
        table_check_table_insert_self]
  · intro j hj
    simp [Nat.testBit_lor, hj]

/-- Accumulation table holding pattern 0b1 for fingerprint 0x1000. -/
def c8State : SMS :=
  { sms_init ⟨64, []⟩ with
    accumulation_table :=
      { (sms_init ⟨64, []⟩).accumulation_table with data := [(0x1000, 1)] } }

/-- Witness for C8: the access to line 0x1040 (one-bit pattern 0b10) finds
stored pattern 0b1 and leaves 0b10 ||| 0b1 = 0b11 in the accumulation
table. -/
theorem accumulation_table_access_or_monotone_witness :
    table_check (accumulation_table_access c8State
        0x1040).accumulation_table (get_table_index c8State 0x1040) =
      some 3 :=
  ((accumulation_table_access_or_monotone c8State 0x1040 1
    (by decide)).1).trans (by decide)

/-- Claim C9: a `sms_dcache_insert` whose evicted address is 0 leaves the
filter table, the accumulation table and the pattern history table
completely unchanged (in fact the whole state is unchanged; a NULL handle is
merely replaced by the fresh `sms_init` instance). -/
theorem sms_dcache_insert_no_eviction_frame (dc : Dcache) (s : SMS)
    (line_addr : Addr) :
    sms_dcache_insert dc (some s) line_addr 0 = s ∧
    (sms_dcache_insert dc (some s) line_addr 0).filter_table =
      s.filter_table ∧
    (sms_dcache_insert dc (some s) line_addr 0).accumulation_table =
      s.accumulation_table ∧
    (sms_dcache_insert dc (some s) line_addr 0).pattern_history_table =
      s.pattern_history_table ∧
    sms_dcache_insert dc none line_addr 0 = sms_init dc :=
  ⟨rfl, rfl, rfl, rfl, rfl⟩

/-- Claim C10: a public entry point invoked on a NULL handle first builds a
fresh `sms_init` instance — filter, accumulation and pattern history table
each with 16384 entries, associativity 4, line size 2048, LRU replacement,
and empty — and then processes the event exactly as it would against that
fresh state. -/
theorem null_handle_initializes_and_processes (dc : Dcache)
    (line_addr repl_line_addr : Addr) :
    sms_dcache_access dc none line_addr =
      sms_dcache_access dc (some (sms_init dc)) line_addr ∧
    sms_dcache_insert dc none line_addr repl_line_addr =
      sms_dcache_insert dc (some (sms_init dc)) line_addr repl_line_addr ∧
    (sms_init dc).filter_table = init_cache 16384 4 2048 ∧
    (sms_init dc).accumulation_table = init_cache 16384 4 2048 ∧
    (sms_init dc).pattern_history_table = init_cache 16384 4 2048 ∧
    (init_cache 16384 4 2048).numEntries = 16384 ∧
    (init_cache 16384 4 2048).assoc = 4 ∧
    (init_cache 16384 4 2048).lineSize = 2048 ∧
    (init_cache 16384 4 2048).repl = ReplPolicy.lru_ref ∧
    (init_cache 16384 4 2048).data = [] :=
  ⟨rfl, rfl, rfl, rfl, rfl, rfl, rfl, rfl, rfl, rfl⟩
